import Mathlib

/-
Verification of the gigabytekbd HID driver core (src/driver/gigabytekbd_driver.c)
via a shallow embedding: the raw-event router, the shared input sink lifecycle,
the touchpad toggle coordinator, and the deferred work mechanism.
-/

/- Fn key HID raw event codes, from the driver source. -/
def HIDRAW_FN_ESC : Nat := 0x04000084
def HIDRAW_FN_F2 : Nat := 0x0400007C
def HIDRAW_FN_F3 : Nat := 0x0400007D
def HIDRAW_FN_F4 : Nat := 0x0400007E
def HIDRAW_FN_F5 : Nat := 0x0400007F
def HIDRAW_FN_F6 : Nat := 0x04000080
def HIDRAW_FN_F8_PRESS : Nat := 0x04000186
def HIDRAW_FN_F8_RELEASE : Nat := 0x04000086
def HIDRAW_FN_F9_PRESS : Nat := 0x04000187
def HIDRAW_FN_F9_RELEASE : Nat := 0x04000087
def HIDRAW_FN_F10 : Nat := 0x04000081
def HIDRAW_FN_F11 : Nat := 0x04000082
def HIDRAW_FN_F12 : Nat := 0x04000083
def HIDRAW_FN_F12_ALT : Nat := 0x04000088

/- The full catalog of recognized raw codes (every case label of the switch). -/
def hidraw_catalog : List Nat :=
  [HIDRAW_FN_ESC, HIDRAW_FN_F2, HIDRAW_FN_F3, HIDRAW_FN_F4, HIDRAW_FN_F5,
   HIDRAW_FN_F6, HIDRAW_FN_F8_PRESS, HIDRAW_FN_F8_RELEASE, HIDRAW_FN_F9_PRESS,
   HIDRAW_FN_F9_RELEASE, HIDRAW_FN_F10, HIDRAW_FN_F11, HIDRAW_FN_F12,
   HIDRAW_FN_F12_ALT]

/- make_u32(a,b,c,d) = a<<24 | b<<16 | c<<8 | d, as a 32-bit value. -/
def make_u32 (a b c d : Nat) : Nat :=
  ((a <<< 24) ||| (b <<< 16) ||| (c <<< 8) ||| d) % 4294967296

/- Linux FB_BLANK_POWERDOWN constant. -/
def FB_BLANK_POWERDOWN : Nat := 4

/- The keys the driver can emit (KEY_* constants used by the source). -/
inductive Key where
  | WLAN
  | SWITCHVIDEOMODE
  | VOLUMEDOWN
  | VOLUMEUP
  | RFKILL
  | PROG1
  | PROG2
deriving DecidableEq

/- A backlight device: the one field the driver reads (props.power). -/
structure BacklightDevice where
  power : Nat
deriving DecidableEq

/-
gigabyte_kbd_is_backlight_off reads
gigabyte_kbd_backlight_device->props.power with no NULL check. We model the
global pointer as an Option; a none input means the dereference faults, which
the model records as the result none.
-/
def gigabyte_kbd_is_backlight_off : Option BacklightDevice → Option Bool
  | none => none
  | some b => some (decide (b.power = FB_BLANK_POWERDOWN))

/- Low-level events delivered to an input device (input_report_key / input_sync).
   Devices are identified by a Nat instance id. -/
inductive SinkEvent where
  | reportKey (key : Key) (value : Nat)
  | sync
deriving DecidableEq

/- gigabyte_kbd_emit_key: press + release, each synced; no-op on a NULL input. -/
def gigabyte_kbd_emit_key (input : Option Nat) (key : Key) : List (Nat × SinkEvent) :=
  match input with
  | none => []
  | some d =>
    [(d, SinkEvent.reportKey key 1), (d, SinkEvent.sync),
     (d, SinkEvent.reportKey key 0), (d, SinkEvent.sync)]

/- gigabyte_kbd_emit_volume: dev = consumer_dev ?: input_dev; one level report
   plus sync on that device; no-op if both are NULL. -/
def gigabyte_kbd_emit_volume (consumer primary : Option Nat) (key : Key)
    (pressed : Nat) : List (Nat × SinkEvent) :=
  match consumer.orElse fun _ => primary with
  | none => []
  | some dev => [(dev, SinkEvent.reportKey key pressed), (dev, SinkEvent.sync)]

/- The two deferred work items declared by the driver. -/
inductive WorkKind where
  | backlightToggle
  | touchpadToggle
deriving DecidableEq

/- The global driver state consulted by gigabyte_kbd_raw_event. -/
structure KbdGlobals where
  input_dev : Option Nat
  consumer_dev : Option Nat
  backlight_device : Option BacklightDevice
  touchpad_device : Bool
deriving DecidableEq

/- Everything one call of gigabyte_kbd_raw_event does: its return value,
   the final bytes of the rd buffer, the emit-call instrumentation, the
   device-level events produced, the reports re-injected through
   hid_report_raw_event, and the schedule_work submissions. -/
structure RawEventResult where
  handled : Nat
  bytes : List Nat
  pulse_calls : List Key
  volume_calls : List (Key × Nat)
  events : List (Nat × SinkEvent)
  injected : List (List Nat)
  scheduled : List WorkKind
deriving DecidableEq

/- The switch body of gigabyte_kbd_raw_event on the four report bytes.
   A result of none models the fault (NULL backlight dereference) on the
   Fn+F3 / Fn+F4 paths when no backlight device was found. -/
def gigabyte_kbd_dispatch (g : KbdGlobals) (b0 b1 b2 b3 : Nat) :
    Option RawEventResult :=
  let rd := [b0, b1, b2, b3]
  if make_u32 b0 b1 b2 b3 = HIDRAW_FN_ESC then
    some ⟨1, rd, [Key.PROG2], [], gigabyte_kbd_emit_key g.input_dev Key.PROG2, [], []⟩
  else if make_u32 b0 b1 b2 b3 = HIDRAW_FN_F2 then
    some ⟨1, rd, [Key.WLAN], [], gigabyte_kbd_emit_key g.input_dev Key.WLAN, [], []⟩
  else if make_u32 b0 b1 b2 b3 = HIDRAW_FN_F3 then
    match gigabyte_kbd_is_backlight_off g.backlight_device with
    | none => none
    | some true => some ⟨0, rd, [], [], [], [], []⟩
    | some false =>
      some ⟨1, [0x03, 0x00, 0x00, b3], [], [], [], [[0x03, 0x70, 0x00, b3]], []⟩
  else if make_u32 b0 b1 b2 b3 = HIDRAW_FN_F4 then
    match gigabyte_kbd_is_backlight_off g.backlight_device with
    | none => none
    | some true => some ⟨0, rd, [], [], [], [], []⟩
    | some false =>
      some ⟨1, [0x03, 0x00, 0x00, b3], [], [], [], [[0x03, 0x6f, 0x00, b3]], []⟩
  else if make_u32 b0 b1 b2 b3 = HIDRAW_FN_F5 then
    some ⟨1, rd, [Key.SWITCHVIDEOMODE], [],
          gigabyte_kbd_emit_key g.input_dev Key.SWITCHVIDEOMODE, [], []⟩
  else if make_u32 b0 b1 b2 b3 = HIDRAW_FN_F6 then
    some ⟨0, rd, [], [], [], [],
          if g.backlight_device.isSome then [WorkKind.backlightToggle] else []⟩
  else if make_u32 b0 b1 b2 b3 = HIDRAW_FN_F8_PRESS then
    some ⟨1, rd, [], [(Key.VOLUMEDOWN, 1)],
          gigabyte_kbd_emit_volume g.consumer_dev g.input_dev Key.VOLUMEDOWN 1, [], []⟩
  else if make_u32 b0 b1 b2 b3 = HIDRAW_FN_F8_RELEASE then
    some ⟨1, rd, [], [(Key.VOLUMEDOWN, 0)],
          gigabyte_kbd_emit_volume g.consumer_dev g.input_dev Key.VOLUMEDOWN 0, [], []⟩
  else if make_u32 b0 b1 b2 b3 = HIDRAW_FN_F9_PRESS then
    some ⟨1, rd, [], [(Key.VOLUMEUP, 1)],
          gigabyte_kbd_emit_volume g.consumer_dev g.input_dev Key.VOLUMEUP 1, [], []⟩
  else if make_u32 b0 b1 b2 b3 = HIDRAW_FN_F9_RELEASE then
    some ⟨1, rd, [], [(Key.VOLUMEUP, 0)],
          gigabyte_kbd_emit_volume g.consumer_dev g.input_dev Key.VOLUMEUP 0, [], []⟩
  else if make_u32 b0 b1 b2 b3 = HIDRAW_FN_F10 then
    some ⟨0, rd, [], [], [], [],
          if g.touchpad_device then [WorkKind.touchpadToggle] else []⟩
  else if make_u32 b0 b1 b2 b3 = HIDRAW_FN_F11 then
    some ⟨1, rd, [Key.RFKILL], [], gigabyte_kbd_emit_key g.input_dev Key.RFKILL, [], []⟩
  else if make_u32 b0 b1 b2 b3 = HIDRAW_FN_F12 ∨ make_u32 b0 b1 b2 b3 = HIDRAW_FN_F12_ALT then
    some ⟨1, rd, [Key.PROG1], [], gigabyte_kbd_emit_key g.input_dev Key.PROG1, [], []⟩
  else
    some ⟨0, rd, [], [], [], [], []⟩

/- gigabyte_kbd_raw_event: the id/size guard, then the switch on the 32-bit
   code assembled from the report bytes. -/
def gigabyte_kbd_raw_event (g : KbdGlobals) (report_id : Nat) (rd : List Nat)
    (size : Nat) : Option RawEventResult :=
  if report_id = 4 ∧ size = 4 then
    match rd with
    | [b0, b1, b2, b3] => gigabyte_kbd_dispatch g b0 b1 b2 b3
    | _ => some ⟨0, rd, [], [], [], [], []⟩
  else
    some ⟨0, rd, [], [], [], [], []⟩

example : gigabyte_kbd_raw_event ⟨some 7, none, none, false⟩ 4 [0x04, 0x00, 0x00, 0x7C] 4 =
    some ⟨1, [0x04, 0x00, 0x00, 0x7C], [Key.WLAN], [],
          gigabyte_kbd_emit_key (some 7) Key.WLAN, [], []⟩ := by decide

example : gigabyte_kbd_raw_event ⟨some 7, none, none, false⟩ 4 [0x04, 0x00, 0x00, 0x7D] 4 =
    none := by decide

example : gigabyte_kbd_raw_event ⟨some 7, none, some ⟨0⟩, false⟩ 4 [0x04, 0x00, 0x00, 0x7D] 4 =
    some ⟨1, [0x03, 0x00, 0x00, 0x7D], [], [], [], [[0x03, 0x70, 0x00, 0x7D]], []⟩ := by decide

/-
The shared input sink: gigabyte_kbd_setup_input_dev / gigabyte_kbd_remove
manage the globals gigabyte_kbd_input_dev (modeled as an Option instance id)
and gigabyte_kbd_refcount (C int, modeled as Int). next_id is a ghost
allocation counter giving each created device a fresh identity.
-/
structure SinkState where
  input_dev : Option Nat
  refcount : Int
  next_id : Nat
deriving DecidableEq

/- gigabyte_kbd_setup_input_dev: reuse the existing device (refcount++), or
   create and register a fresh one.  allocOk / regOk model the outcomes of
   input_allocate_device and input_register_device; the Bool result is
   success of the call (a zero return in C). -/
def gigabyte_kbd_setup_input_dev (allocOk regOk : Bool) : SinkState → SinkState × Bool
  | ⟨some d, rc, n⟩ => (⟨some d, rc + 1, n⟩, true)
  | ⟨none, rc, n⟩ =>
    if allocOk then
      if regOk then (⟨some n, 1, n + 1⟩, true)
      else (⟨none, rc, n⟩, false)
    else (⟨none, rc, n⟩, false)

/- gigabyte_kbd_remove: decrement only when positive; unregister and clear the
   device when the count reaches zero with a device present. -/
def gigabyte_kbd_remove : SinkState → SinkState
  | ⟨dev, rc, n⟩ =>
    if 0 < rc then
      if rc - 1 = 0 ∧ dev.isSome then ⟨none, rc - 1, n⟩
      else ⟨dev, rc - 1, n⟩
    else ⟨dev, rc, n⟩

/- One lifecycle operation: a probe's setup call or a remove call. -/
inductive SinkOp where
  | attach (allocOk regOk : Bool)
  | detach
deriving DecidableEq

def sinkStep (s : SinkState) : SinkOp → SinkState
  | SinkOp.attach a r => (gigabyte_kbd_setup_input_dev a r s).1
  | SinkOp.detach => gigabyte_kbd_remove s

def runSink (s : SinkState) (ops : List SinkOp) : SinkState :=
  ops.foldl sinkStep s

/- Initial state of the module: no device, refcount zero. -/
def initSink : SinkState := ⟨none, 0, 0⟩

/- A fully successful setup call. -/
def attachOp : SinkOp := SinkOp.attach true true

/- The state invariant of the sink lifecycle: the count is never negative and
   a positive count means a registered device exists. -/
def SinkInv (s : SinkState) : Prop :=
  0 ≤ s.refcount ∧ (0 < s.refcount → s.input_dev.isSome = true)

lemma sinkStep_inv {s : SinkState} (h : SinkInv s) (op : SinkOp) :
    SinkInv (sinkStep s op) := by
  obtain ⟨dev, rc, n⟩ := s
  obtain ⟨h0, h1⟩ := h
  simp only [SinkInv] at h0 h1 ⊢
  cases op with
  | attach a r =>
    cases dev with
    | some d =>
      simp only [sinkStep, gigabyte_kbd_setup_input_dev]
      exact ⟨by omega, fun _ => rfl⟩
    | none =>
      simp only [sinkStep, gigabyte_kbd_setup_input_dev]
      split_ifs <;> simp_all
  | detach =>
    simp only [sinkStep, gigabyte_kbd_remove]
    split_ifs with hp hz
    · exact ⟨by dsimp only; omega, fun hc => absurd (by dsimp only at hc; exact hc) (by omega)⟩
    · refine ⟨by dsimp only; omega, fun _ => ?_⟩
      cases dev with
      | none => exact absurd (h1 hp) (by simp)
      | some d => rfl
    · exact ⟨h0, h1⟩

lemma runSink_inv {s : SinkState} (h : SinkInv s) (ops : List SinkOp) :
    SinkInv (runSink s ops) := by
  induction ops generalizing s with
  | nil => exact h
  | cons op ops ih => exact ih (sinkStep_inv h op)

lemma runSink_append (s : SinkState) (l1 l2 : List SinkOp) :
    runSink s (l1 ++ l2) = runSink (runSink s l1) l2 :=
  List.foldl_append sinkStep s l1 l2

lemma attach_replicate (m : Nat) (i : Nat) (k : Int) (n : Nat) :
    runSink ⟨some i, k, n⟩ (List.replicate m attachOp) = ⟨some i, k + m, n⟩ := by
  induction m generalizing k with
  | zero => simp [runSink]
  | succ m ih =>
    rw [List.replicate_succ]
    have h1 : runSink ⟨some i, k, n⟩ (attachOp :: List.replicate m attachOp)
        = runSink ⟨some i, k + 1, n⟩ (List.replicate m attachOp) := rfl
    rw [h1, ih]
    congr 1
    push_cast
    ring

lemma init_attach (m : Nat) (hm : 1 ≤ m) :
    runSink initSink (List.replicate m attachOp) = ⟨some 0, m, 1⟩ := by
  obtain ⟨M, rfl⟩ : ∃ M, m = M + 1 := ⟨m - 1, by omega⟩
  rw [List.replicate_succ]
  have h1 : runSink initSink (attachOp :: List.replicate M attachOp)
      = runSink ⟨some 0, 1, 1⟩ (List.replicate M attachOp) := rfl
  rw [h1, attach_replicate]
  congr 1
  push_cast
  ring

lemma remove_decrement (i : Nat) (k : Int) (n : Nat) (h0 : 0 < k) (h1 : k - 1 ≠ 0) :
    gigabyte_kbd_remove ⟨some i, k, n⟩ = ⟨some i, k - 1, n⟩ := by
  simp only [gigabyte_kbd_remove]
  rw [if_pos h0, if_neg (by simp [h1])]

lemma remove_last (i : Nat) (n : Nat) :
    gigabyte_kbd_remove ⟨some i, 1, n⟩ = ⟨none, 0, n⟩ := by
  simp only [gigabyte_kbd_remove]
  norm_num

lemma detach_under (m : Nat) :
    ∀ (k : Int) (i n : Nat), (m : Int) < k →
      runSink ⟨some i, k, n⟩ (List.replicate m SinkOp.detach) = ⟨some i, k - m, n⟩ := by
  induction m with
  | zero => intro k i n _; simp [runSink]
  | succ m ih =>
    intro k i n hk
    have h2 : gigabyte_kbd_remove ⟨some i, k, n⟩ = ⟨some i, k - 1, n⟩ :=
      remove_decrement i k n (by omega) (by omega)
    calc runSink ⟨some i, k, n⟩ (List.replicate (m + 1) SinkOp.detach)
        = runSink (gigabyte_kbd_remove ⟨some i, k, n⟩)
            (List.replicate m SinkOp.detach) := by rw [List.replicate_succ]; rfl
      _ = runSink ⟨some i, k - 1, n⟩ (List.replicate m SinkOp.detach) := by rw [h2]
      _ = ⟨some i, (k - 1) - m, n⟩ := ih (k - 1) i n (by omega)
      _ = ⟨some i, k - (m + 1), n⟩ := by congr 1; omega

lemma detach_exact (k : Nat) (i : Nat) (n : Nat) :
    runSink ⟨some i, (k : Int) + 1, n⟩ (List.replicate (k + 1) SinkOp.detach)
      = ⟨none, 0, n⟩ := by
  have hsplit : List.replicate (k + 1) SinkOp.detach
      = List.replicate k SinkOp.detach ++ [SinkOp.detach] := by
    rw [List.replicate_succ']
  rw [hsplit, runSink_append]
  rw [detach_under k ((k : Int) + 1) i n (by omega)]
  have hone : (k : Int) + 1 - k = 1 := by ring
  rw [hone]
  exact remove_last i n

/-
The touchpad coordinator: gigabyte_kbd_touchpad_toggle_driver over the pair
(touchpad_device->driver, gigabyte_kbd_touchpad_driver).  Driver instances are
identified by a Nat id.  attachOk models the result of device_driver_attach
(whose error the source ignores); on failure the device stays unbound.
device_release_driver clears the device's bound driver.
-/
structure TouchpadState where
  driver : Option Nat
  touchpad_driver : Option Nat
deriving DecidableEq

def gigabyte_kbd_touchpad_toggle_driver (attachOk : Bool) : TouchpadState → TouchpadState
  | ⟨some d, _⟩ => ⟨none, some d⟩
  | ⟨none, some d⟩ => if attachOk then ⟨some d, some d⟩ else ⟨none, some d⟩
  | ⟨none, none⟩ => ⟨none, none⟩

/-- Modelled from the spec: the kernel work-queue machinery behind DECLARE_WORK
and schedule_work is not part of this repository (the source only declares the
two work items and submits them); per the spec (§3, §4.3) each kind of deferred
task has at most one pending instance — submitting an already-pending kind
coalesces into the single pending instance — and the worker clears the pending
flag and runs the task exactly once per pending instance. -/
structure WorkItem where
  pending : Bool
  execCount : Nat
deriving DecidableEq

def schedule_work (w : WorkItem) : WorkItem := ⟨true, w.execCount⟩

def run_pending_work (w : WorkItem) : WorkItem :=
  if w.pending then ⟨false, w.execCount + 1⟩ else w

inductive WorkOp where
  | submit
  | execute
deriving DecidableEq

def workStep (w : WorkItem) : WorkOp → WorkItem
  | WorkOp.submit => schedule_work w
  | WorkOp.execute => run_pending_work w

def runWork (w : WorkItem) (ops : List WorkOp) : WorkItem :=
  ops.foldl workStep w

/- Count of positions where two byte buffers differ. -/
def byteDiffCount (xs ys : List Nat) : Nat :=
  (List.zip xs ys).countP fun p => p.1 != p.2

/-
Bridging equations: the router on an Fn+F3 / Fn+F4 report reduces to the
match on the (possibly faulting) backlight-off test.
-/
lemma raw_event_f3_eq (g : KbdGlobals) :
    gigabyte_kbd_raw_event g 4 [0x04, 0x00, 0x00, 0x7D] 4
      = match gigabyte_kbd_is_backlight_off g.backlight_device with
        | none => none
        | some true => some ⟨0, [0x04, 0x00, 0x00, 0x7D], [], [], [], [], []⟩
        | some false =>
            some ⟨1, [0x03, 0x00, 0x00, 0x7D], [], [], [], [[0x03, 0x70, 0x00, 0x7D]], []⟩ := rfl

lemma raw_event_f4_eq (g : KbdGlobals) :
    gigabyte_kbd_raw_event g 4 [0x04, 0x00, 0x00, 0x7E] 4
      = match gigabyte_kbd_is_backlight_off g.backlight_device with
        | none => none
        | some true => some ⟨0, [0x04, 0x00, 0x00, 0x7E], [], [], [], [], []⟩
        | some false =>
            some ⟨1, [0x03, 0x00, 0x00, 0x7E], [], [], [], [[0x03, 0x6f, 0x00, 0x7E]], []⟩ := rfl

/-- Claim C1 counterexample: for the eligible Fn+F3 report (bytes 04 00 00 7D)
with the backlight on, the router injects the synthesized step report and then
resets the buffer, so the final bytes [03 00 00 7D] differ from the original
[04 00 00 7D] in exactly one byte field, not two as the claim states. -/
theorem c1_counterexample :
    gigabyte_kbd_raw_event ⟨none, none, some ⟨0⟩, false⟩ 4 [0x04, 0x00, 0x00, 0x7D] 4
      = some ⟨1, [0x03, 0x00, 0x00, 0x7D], [], [], [], [[0x03, 0x70, 0x00, 0x7D]], []⟩
    ∧ byteDiffCount [0x04, 0x00, 0x00, 0x7D] [0x03, 0x00, 0x00, 0x7D] = 1
    ∧ byteDiffCount [0x04, 0x00, 0x00, 0x7D] [0x03, 0x00, 0x00, 0x7D] ≠ 2 := by decide

/-- Claim C1 (amended): for an eligible brightness-step report with a backlight
device present: if the backlight is off the router returns unhandled with no
rewrite, no injection and no other effect; if it is on it injects the
synthesized step report {0x03, step-code, 0x00} (0x70 for Fn+F3, 0x6f for
Fn+F4), which differs from the original bytes in exactly two fields, resets the
buffer to {0x03, 0x00, 0x00}, and returns handled — so relative to the original
report exactly one byte field ends up rewritten. -/
theorem c1_brightness_step_rewrite (i c : Option Nat) (t : Bool) (pw : Nat) :
    (pw = FB_BLANK_POWERDOWN →
      gigabyte_kbd_raw_event ⟨i, c, some ⟨pw⟩, t⟩ 4 [0x04, 0x00, 0x00, 0x7D] 4
        = some ⟨0, [0x04, 0x00, 0x00, 0x7D], [], [], [], [], []⟩
      ∧ gigabyte_kbd_raw_event ⟨i, c, some ⟨pw⟩, t⟩ 4 [0x04, 0x00, 0x00, 0x7E] 4
        = some ⟨0, [0x04, 0x00, 0x00, 0x7E], [], [], [], [], []⟩)
    ∧ (pw ≠ FB_BLANK_POWERDOWN →
      gigabyte_kbd_raw_event ⟨i, c, some ⟨pw⟩, t⟩ 4 [0x04, 0x00, 0x00, 0x7D] 4
        = some ⟨1, [0x03, 0x00, 0x00, 0x7D], [], [], [], [[0x03, 0x70, 0x00, 0x7D]], []⟩
      ∧ gigabyte_kbd_raw_event ⟨i, c, some ⟨pw⟩, t⟩ 4 [0x04, 0x00, 0x00, 0x7E] 4
        = some ⟨1, [0x03, 0x00, 0x00, 0x7E], [], [], [], [[0x03, 0x6f, 0x00, 0x7E]], []⟩
      ∧ byteDiffCount [0x04, 0x00, 0x00, 0x7D] [0x03, 0x70, 0x00, 0x7D] = 2
      ∧ byteDiffCount [0x04, 0x00, 0x00, 0x7D] [0x03, 0x00, 0x00, 0x7D] = 1
      ∧ byteDiffCount [0x04, 0x00, 0x00, 0x7E] [0x03, 0x6f, 0x00, 0x7E] = 2
      ∧ byteDiffCount [0x04, 0x00, 0x00, 0x7E] [0x03, 0x00, 0x00, 0x7E] = 1) := by
  constructor
  · intro h
    subst h
    exact ⟨rfl, rfl⟩
  · intro h
    refine ⟨?_, ?_, by decide, by decide, by decide, by decide⟩
    · rw [raw_event_f3_eq]
      simp only [gigabyte_kbd_is_backlight_off, decide_eq_false h]
    · rw [raw_event_f4_eq]
      simp only [gigabyte_kbd_is_backlight_off, decide_eq_false h]

/-- Claim C1 witness: the amended theorem instantiated at a backlight that is
off (power = FB_BLANK_POWERDOWN) and one that is on (power = 0). -/
theorem c1_brightness_step_rewrite_witness :
    gigabyte_kbd_raw_event ⟨none, none, some ⟨FB_BLANK_POWERDOWN⟩, false⟩ 4
        [0x04, 0x00, 0x00, 0x7D] 4
      = some ⟨0, [0x04, 0x00, 0x00, 0x7D], [], [], [], [], []⟩
    ∧ gigabyte_kbd_raw_event ⟨none, none, some ⟨0⟩, false⟩ 4 [0x04, 0x00, 0x00, 0x7E] 4
      = some ⟨1, [0x03, 0x00, 0x00, 0x7E], [], [], [], [[0x03, 0x6f, 0x00, 0x7E]], []⟩ :=
  ⟨((c1_brightness_step_rewrite none none false FB_BLANK_POWERDOWN).1 rfl).1,
   ((c1_brightness_step_rewrite none none false 0).2 (by decide)).2.1⟩

/-- Claim C2 (code bug): with no backlight device discovered (the handle is
NULL), dispatching a brightness-step report Fn+F3 or Fn+F4 calls
gigabyte_kbd_is_backlight_off, which dereferences the NULL handle and faults
(modeled as the result none), contradicting the claimed non-fatal
pass-through; only the backlight-toggle code Fn+F6 is guarded and is the
claimed unhandled no-op with no submission. -/
theorem c2_backlight_absent_brightness_fault :
    gigabyte_kbd_raw_event ⟨none, none, none, false⟩ 4 [0x04, 0x00, 0x00, 0x7D] 4 = none
    ∧ gigabyte_kbd_raw_event ⟨none, none, none, false⟩ 4 [0x04, 0x00, 0x00, 0x7E] 4 = none
    ∧ gigabyte_kbd_raw_event ⟨none, none, none, false⟩ 4 [0x04, 0x00, 0x00, 0x80] 4
        = some ⟨0, [0x04, 0x00, 0x00, 0x80], [], [], [], [], []⟩ := by decide

/-- Claim C3 counterexample: starting bound to driver 0 with empty memory, two
toggle executions (the rebind succeeding) leave the remembered-driver field
still holding driver 0 — the source never clears gigabyte_kbd_touchpad_driver
after reattachment, refuting the claim that the field is cleared. -/
theorem c3_counterexample :
    gigabyte_kbd_touchpad_toggle_driver true
        (gigabyte_kbd_touchpad_toggle_driver true ⟨some 0, none⟩)
      = ⟨some 0, some 0⟩
    ∧ (⟨some 0, some 0⟩ : TouchpadState).touchpad_driver ≠ none := by decide

/-- Claim C3 (amended): a toggle from the bound state unbinds the driver and
remembers exactly that instance; a second toggle rebinds exactly the
remembered instance — never a different one — but the remembered-driver field
is not cleared after successful reattachment (it stays set until overwritten
by the next unbind); on rebind failure the device stays unbound and the
memory is kept. -/
theorem c3_touchpad_toggle_memory (d : Nat) :
    (∀ a : Bool, gigabyte_kbd_touchpad_toggle_driver a ⟨some d, none⟩ = ⟨none, some d⟩)
    ∧ gigabyte_kbd_touchpad_toggle_driver true ⟨none, some d⟩ = ⟨some d, some d⟩
    ∧ gigabyte_kbd_touchpad_toggle_driver false ⟨none, some d⟩ = ⟨none, some d⟩ :=
  ⟨fun _ => rfl, rfl, rfl⟩

/-- Claim C5 (work-queue coalescing, spec-modelled): two submissions before the
worker runs are one pending instance: the double submission equals the single
one, the worker then executes the task exactly once, and a further worker pass
executes nothing more. -/
theorem c5_work_coalescing (w : WorkItem) :
    runWork w [WorkOp.submit, WorkOp.submit, WorkOp.execute]
      = runWork w [WorkOp.submit, WorkOp.execute]
    ∧ (runWork w [WorkOp.submit, WorkOp.submit, WorkOp.execute]).execCount
      = w.execCount + 1
    ∧ (runWork w [WorkOp.submit, WorkOp.submit, WorkOp.execute, WorkOp.execute]).execCount
      = w.execCount + 1
    ∧ schedule_work (schedule_work w) = schedule_work w :=
  ⟨rfl, rfl, rfl, rfl⟩

/-- Claim C6: a report whose id is not 4 or whose length is not 4, and an
eligible report whose 32-bit code is outside the fixed catalog, are returned
unhandled with no emission, no byte rewrite, no injection and no deferred
submission. -/
theorem c6_unrecognized_passthrough :
    (∀ (g : KbdGlobals) (report_id size : Nat) (rd : List Nat),
      report_id ≠ 4 ∨ size ≠ 4 →
      gigabyte_kbd_raw_event g report_id rd size = some ⟨0, rd, [], [], [], [], []⟩)
    ∧ (∀ (g : KbdGlobals) (b0 b1 b2 b3 : Nat),
      make_u32 b0 b1 b2 b3 ∉ hidraw_catalog →
      gigabyte_kbd_raw_event g 4 [b0, b1, b2, b3] 4
        = some ⟨0, [b0, b1, b2, b3], [], [], [], [], []⟩) := by
  constructor
  · intro g report_id size rd h
    have hn : ¬(report_id = 4 ∧ size = 4) :=
      fun hc => h.elim (fun hh => hh hc.1) (fun hh => hh hc.2)
    unfold gigabyte_kbd_raw_event
    rw [if_neg hn]
  · intro g b0 b1 b2 b3 h
    simp only [hidraw_catalog, List.mem_cons, List.not_mem_nil, or_false,
               not_or] at h
    obtain ⟨h1, h2, h3, h4, h5, h6, h7, h8, h9, h10, h11, h12, h13, h14⟩ := h
    have e : gigabyte_kbd_raw_event g 4 [b0, b1, b2, b3] 4
        = gigabyte_kbd_dispatch g b0 b1 b2 b3 := rfl
    rw [e]
    simp [gigabyte_kbd_dispatch, h1, h2, h3, h4, h5, h6, h7, h8, h9, h10,
          h11, h12, h13, h14]

/-- Claim C6 witness: the theorem applied to a report with the wrong id and to
an eligible report carrying the unrecognized code 0. -/
theorem c6_unrecognized_passthrough_witness :
    ((3 : Nat) ≠ 4 ∨ (4 : Nat) ≠ 4)
    ∧ gigabyte_kbd_raw_event ⟨none, none, none, false⟩ 3 [0, 0, 0, 0] 4
        = some ⟨0, [0, 0, 0, 0], [], [], [], [], []⟩
    ∧ make_u32 0 0 0 0 ∉ hidraw_catalog
    ∧ gigabyte_kbd_raw_event ⟨none, none, none, false⟩ 4 [0, 0, 0, 0] 4
        = some ⟨0, [0, 0, 0, 0], [], [], [], [], []⟩ :=
  ⟨Or.inl (by decide),
   c6_unrecognized_passthrough.1 ⟨none, none, none, false⟩ 3 4 [0, 0, 0, 0]
     (Or.inl (by decide)),
   by decide,
   c6_unrecognized_passthrough.2 ⟨none, none, none, false⟩ 0 0 0 0 (by decide)⟩

/-- Claim C7: each of the four volume press/release codes yields handled with
exactly one emit_level call carrying the matching key and polarity, whose
events go to the consumer sink when present and to the primary sink otherwise
(and nowhere when neither exists). -/
theorem c7_volume_emit :
    (∀ g : KbdGlobals,
      gigabyte_kbd_raw_event g 4 [0x04, 0x00, 0x01, 0x86] 4
        = some ⟨1, [0x04, 0x00, 0x01, 0x86], [], [(Key.VOLUMEDOWN, 1)],
                gigabyte_kbd_emit_volume g.consumer_dev g.input_dev Key.VOLUMEDOWN 1,
                [], []⟩
      ∧ gigabyte_kbd_raw_event g 4 [0x04, 0x00, 0x00, 0x86] 4
        = some ⟨1, [0x04, 0x00, 0x00, 0x86], [], [(Key.VOLUMEDOWN, 0)],
                gigabyte_kbd_emit_volume g.consumer_dev g.input_dev Key.VOLUMEDOWN 0,
                [], []⟩
      ∧ gigabyte_kbd_raw_event g 4 [0x04, 0x00, 0x01, 0x87] 4
        = some ⟨1, [0x04, 0x00, 0x01, 0x87], [], [(Key.VOLUMEUP, 1)],
                gigabyte_kbd_emit_volume g.consumer_dev g.input_dev Key.VOLUMEUP 1,
                [], []⟩
      ∧ gigabyte_kbd_raw_event g 4 [0x04, 0x00, 0x00, 0x87] 4
        = some ⟨1, [0x04, 0x00, 0x00, 0x87], [], [(Key.VOLUMEUP, 0)],
                gigabyte_kbd_emit_volume g.consumer_dev g.input_dev Key.VOLUMEUP 0,
                [], []⟩)
    ∧ (∀ (p : Option Nat) (d : Nat) (k : Key) (v : Nat),
        gigabyte_kbd_emit_volume (some d) p k v
          = [(d, SinkEvent.reportKey k v), (d, SinkEvent.sync)])
    ∧ (∀ (d : Nat) (k : Key) (v : Nat),
        gigabyte_kbd_emit_volume none (some d) k v
          = [(d, SinkEvent.reportKey k v), (d, SinkEvent.sync)])
    ∧ (∀ (k : Key) (v : Nat), gigabyte_kbd_emit_volume none none k v = []) :=
  ⟨fun _ => ⟨rfl, rfl, rfl, rfl⟩, fun _ _ _ _ => rfl, fun _ _ _ => rfl,
   fun _ _ => rfl⟩

/-- Claim C8: the backlight-toggle code Fn+F6 and the touchpad-toggle code
Fn+F10 always return unhandled with no emission and no rewrite, and a toggle
task is submitted exactly when the matching peripheral handle is present:
with a backlight present one BacklightToggle submission, with no touchpad
discovered no submission at all. -/
theorem c8_toggle_passthrough :
    (∀ g : KbdGlobals,
      gigabyte_kbd_raw_event g 4 [0x04, 0x00, 0x00, 0x80] 4
        = some ⟨0, [0x04, 0x00, 0x00, 0x80], [], [], [], [],
                if g.backlight_device.isSome then [WorkKind.backlightToggle] else []⟩
      ∧ gigabyte_kbd_raw_event g 4 [0x04, 0x00, 0x00, 0x81] 4
        = some ⟨0, [0x04, 0x00, 0x00, 0x81], [], [], [], [],
                if g.touchpad_device then [WorkKind.touchpadToggle] else []⟩)
    ∧ (∀ (g : KbdGlobals) (bl : BacklightDevice), g.backlight_device = some bl →
        gigabyte_kbd_raw_event g 4 [0x04, 0x00, 0x00, 0x80] 4
          = some ⟨0, [0x04, 0x00, 0x00, 0x80], [], [], [], [],
                  [WorkKind.backlightToggle]⟩)
    ∧ (∀ g : KbdGlobals, g.touchpad_device = false →
        gigabyte_kbd_raw_event g 4 [0x04, 0x00, 0x00, 0x81] 4
          = some ⟨0, [0x04, 0x00, 0x00, 0x81], [], [], [], [], []⟩) := by
  refine ⟨fun g => ⟨rfl, rfl⟩, ?_, ?_⟩
  · intro g bl h
    have e : gigabyte_kbd_raw_event g 4 [0x04, 0x00, 0x00, 0x80] 4
        = some ⟨0, [0x04, 0x00, 0x00, 0x80], [], [], [], [],
                if g.backlight_device.isSome then [WorkKind.backlightToggle] else []⟩ := rfl
    simp [e, h]
  · intro g h
    have e : gigabyte_kbd_raw_event g 4 [0x04, 0x00, 0x00, 0x81] 4
        = some ⟨0, [0x04, 0x00, 0x00, 0x81], [], [], [], [],
                if g.touchpad_device then [WorkKind.touchpadToggle] else []⟩ := rfl
    simp [e, h]

/-- Claim C8 witness: the theorem applied with a backlight present (one
BacklightToggle submission) and with no touchpad discovered (no submission). -/
theorem c8_toggle_passthrough_witness :
    gigabyte_kbd_raw_event ⟨none, none, some ⟨0⟩, false⟩ 4 [0x04, 0x00, 0x00, 0x80] 4
      = some ⟨0, [0x04, 0x00, 0x00, 0x80], [], [], [], [], [WorkKind.backlightToggle]⟩
    ∧ gigabyte_kbd_raw_event ⟨none, none, some ⟨0⟩, false⟩ 4 [0x04, 0x00, 0x00, 0x81] 4
      = some ⟨0, [0x04, 0x00, 0x00, 0x81], [], [], [], [], []⟩ :=
  ⟨c8_toggle_passthrough.2.1 ⟨none, none, some ⟨0⟩, false⟩ ⟨0⟩ rfl,
   c8_toggle_passthrough.2.2 ⟨none, none, some ⟨0⟩, false⟩ rfl⟩

/-- Claim C9: emit_pulse never fails its caller — with no registered sink it is
a no-op producing no events, with a registered sink it reports key-down,
syncs, reports key-up and syncs; and the eligible Fn+F2 report yields handled
with exactly one emit_pulse(WLAN). -/
theorem c9_emit_pulse_total :
    (∀ k : Key, gigabyte_kbd_emit_key none k = [])
    ∧ (∀ (d : Nat) (k : Key),
        gigabyte_kbd_emit_key (some d) k
          = [(d, SinkEvent.reportKey k 1), (d, SinkEvent.sync),
             (d, SinkEvent.reportKey k 0), (d, SinkEvent.sync)])
    ∧ (∀ g : KbdGlobals,
        gigabyte_kbd_raw_event g 4 [0x04, 0x00, 0x00, 0x7C] 4
          = some ⟨1, [0x04, 0x00, 0x00, 0x7C], [Key.WLAN], [],
                  gigabyte_kbd_emit_key g.input_dev Key.WLAN, [], []⟩) :=
  ⟨fun _ => rfl, fun _ _ => rfl, fun _ => rfl⟩

/-- Claim C4: from the initial state, N successful attaches followed by N
detaches leave the sink unregistered; N attaches followed by N-1 detaches
leave it registered with refcount 1, and a further attach reuses the same
instance (same device id, no new allocation); and in every reachable state a
positive refcount implies a registered sink. -/
theorem c4_sink_refcount_lifecycle (N : Nat) (hN : 1 ≤ N) :
    (runSink initSink (List.replicate N attachOp ++ List.replicate N SinkOp.detach)).input_dev
      = none
    ∧ runSink initSink (List.replicate N attachOp ++ List.replicate (N - 1) SinkOp.detach)
      = ⟨some 0, 1, 1⟩
    ∧ (∀ a r : Bool,
        (gigabyte_kbd_setup_input_dev a r
          (runSink initSink (List.replicate N attachOp ++ List.replicate (N - 1) SinkOp.detach))).1
        = ⟨some 0, 2, 1⟩)
    ∧ (∀ ops : List SinkOp,
        0 < (runSink initSink ops).refcount →
        (runSink initSink ops).input_dev.isSome = true) := by
  obtain ⟨M, rfl⟩ : ∃ M, N = M + 1 := ⟨N - 1, by omega⟩
  have hattach : runSink initSink (List.replicate (M + 1) attachOp)
      = ⟨some 0, (M : Int) + 1, 1⟩ := by
    rw [init_attach (M + 1) (by omega)]
    congr 1
  refine ⟨?_, ?_, ?_, ?_⟩
  · rw [runSink_append, hattach, detach_exact]
  · rw [runSink_append, hattach]
    have hM : M + 1 - 1 = M := by omega
    rw [hM, detach_under M ((M : Int) + 1) 0 1 (by omega)]
    congr 1
    ring
  · intro a r
    have hM : M + 1 - 1 = M := by omega
    rw [hM, runSink_append, hattach, detach_under M ((M : Int) + 1) 0 1 (by omega)]
    have hone : (M : Int) + 1 - M = 1 := by ring
    rw [hone]
    rfl
  · intro ops
    exact (runSink_inv ⟨by decide, by decide⟩ ops).2

/-- Claim C4 witness: the lifecycle theorem at N = 2. -/
theorem c4_sink_refcount_lifecycle_witness :
    (1 ≤ 2)
    ∧ (runSink initSink
        (List.replicate 2 attachOp ++ List.replicate 2 SinkOp.detach)).input_dev = none
    ∧ runSink initSink (List.replicate 2 attachOp ++ List.replicate 1 SinkOp.detach)
      = ⟨some 0, 1, 1⟩ :=
  ⟨by decide, (c4_sink_refcount_lifecycle 2 (by decide)).1,
   (c4_sink_refcount_lifecycle 2 (by decide)).2.1⟩

/-- Claim C10: over every sequence of attach and detach operations the
refcount stays non-negative, and a detach performed when the refcount is
already zero (for example after sink creation failed) changes nothing: the
refcount, the registration state and the instance are all left as they were. -/
theorem c10_refcount_nonneg :
    (∀ ops : List SinkOp, 0 ≤ (runSink initSink ops).refcount)
    ∧ (∀ s : SinkState, s.refcount = 0 → gigabyte_kbd_remove s = s) := by
  constructor
  · intro ops
    exact (runSink_inv ⟨by decide, by decide⟩ ops).1
  · intro s h
    obtain ⟨dev, rc, n⟩ := s
    simp only at h
    simp [gigabyte_kbd_remove, h]

/-- Claim C10 witness: a detach at refcount 0 (after a failed-allocation
attach) is a no-op, and the refcount after that trace is still non-negative. -/
theorem c10_refcount_nonneg_witness :
    ((runSink initSink [SinkOp.attach false false] : SinkState).refcount = 0)
    ∧ gigabyte_kbd_remove (runSink initSink [SinkOp.attach false false])
      = runSink initSink [SinkOp.attach false false]
    ∧ 0 ≤ (runSink initSink [SinkOp.attach false false, SinkOp.detach]).refcount :=
  ⟨by decide, c10_refcount_nonneg.2 (runSink initSink [SinkOp.attach false false]) (by decide),
   c10_refcount_nonneg.1 [SinkOp.attach false false, SinkOp.detach]⟩
